import Mathlib

/-!
Verification development for `src/usage/simple-test.py` of the
open-transcribe repository.

The script records microphone audio, encodes it to raw PCM
(`convert_to_pcm_bytes`), uploads it to a transcription server
(`transcribe_audio`) and renders the result (`main`).

Embedding conventions:
* Audio samples (numpy `float32` values) are modelled as rationals `ℚ`.
  Every concrete value appearing in a theorem below (`0.5`, `1.0`, `0.95`, …)
  is exactly representable in `float32`, and the float32 products involved
  (`0.5 * 8388607`, `±1.0 * 32767`) are exact, so the rational model agrees
  with the float computation at those points.  Claims quantified over all
  buffers concern only lengths and determinism, which do not depend on
  rounding.
* numpy `astype` to a signed integer type truncates toward zero; values
  outside the target range are modelled as two's-complement wrap-around
  (the claims below never evaluate the encoder outside `[-1, 1]`).
* Python exceptions are modelled with `Except PyErr`; `int.to_bytes`
  (numpy ≥ 2 integer scalars behave identically) raises `OverflowError`
  when the value does not fit the requested signed width.
* The HTTP layer and the microphone are external collaborators: their
  behaviour is an input (`HttpOutcome`, the `World` structure), and the
  functions of the script are deterministic functions of those inputs.
* `print` output is modelled as a list of strings, one entry per `print`
  call; `sys.exit`/falling off the end of `main` is an `ExitOutcome`.
-/

namespace OpenTranscribe

/-- Division of an integer by a positive natural, truncating toward zero
(the semantics of a C/numpy float-to-int cast applied to the exact quotient). -/
def tdivPos (a : ℤ) (d : ℕ) : ℤ :=
  if 0 ≤ a then ((a.toNat / d : ℕ) : ℤ) else -((((-a).toNat / d : ℕ) : ℤ))

/-- The integer produced by `(q * k).astype(int...)` for a sample `q : ℚ`:
multiply by the integer scale `k` and truncate toward zero.
Computed from the numerator and denominator so that the kernel can evaluate it. -/
def scaleTrunc (q : ℚ) (k : ℤ) : ℤ := tdivPos (q.num * k) q.den

/-- Two's-complement residue: `v mod m` as a natural number, for a modulus
`m = 2^w`.  This is the bit pattern of `v` in a `w`-bit signed register. -/
def wrapBits (m : ℕ) (v : ℤ) : ℕ := (v.emod (m : ℤ)).toNat

/-- Little-endian 2-byte serialization of a 16-bit pattern. -/
def le2 (u : ℕ) : List ℕ := [u % 256, u / 256 % 256]

/-- Little-endian 3-byte serialization of a 24-bit pattern. -/
def le3 (u : ℕ) : List ℕ := [u % 256, u / 256 % 256, u / 65536 % 256]

/-- Little-endian 4-byte serialization of a 32-bit pattern. -/
def le4 (u : ℕ) : List ℕ := [u % 256, u / 256 % 256, u / 65536 % 256, u / 16777216 % 256]

/-- Python exceptions that the script can raise. -/
inductive PyErr where
  | valueError (msg : String)
  | overflowError (msg : String)
  | keyError (key : String)
  | typeError (msg : String)
  | attributeError (msg : String)
deriving DecidableEq

/-- Python `str(exception)`, as used by `f"... failed: {e}"`. -/
def PyErr.message : PyErr → String
  | .valueError m => m
  | .overflowError m => m
  | .keyError k => "'" ++ k ++ "'"
  | .typeError m => m
  | .attributeError m => m

/-- Python `int.to_bytes(3, "little", signed=True)`: raises `OverflowError`
unless the value fits in a signed 3-byte word. -/
def toBytes3LittleSigned (v : ℤ) : Except PyErr (List ℕ) :=
  if -8388608 ≤ v ∧ v < 8388608 then .ok (le3 (wrapBits 16777216 v))
  else .error (.overflowError "int too big to convert")

/-- One 16-bit sample: `(q * 32767).astype(np.int16)` serialized by `tobytes()`. -/
def pcm16Sample (q : ℚ) : List ℕ := le2 (wrapBits 65536 (scaleTrunc q 32767))

/-- One 32-bit sample: `(q * 2147483647).astype(np.int32)` serialized by `tobytes()`. -/
def pcm32Sample (q : ℚ) : List ℕ := le4 (wrapBits 4294967296 (scaleTrunc q 2147483647))

/-- The value of an `np.int32` register holding bit pattern `v mod 2^32`, as an
integer in `[-2^31, 2^31)`. -/
def int32Of (v : ℤ) : ℤ :=
  let u := wrapBits 4294967296 v
  if u < 2147483648 then (u : ℤ) else (u : ℤ) - 4294967296

/-- One 24-bit sample, following the source line by line:
`sample = (q * 8388607).astype(np.int32)`; `sample_24bit = sample & 0xFFFFFF`
(a non-negative int32, the low 24 bits); then
`sample_24bit.to_bytes(3, "little", signed=True)`. -/
def pcm24Sample (q : ℚ) : Except PyErr (List ℕ) :=
  let sample : ℤ := int32Of (scaleTrunc q 8388607)
  let sample24 : ℤ := ((wrapBits 16777216 sample : ℕ) : ℤ)
  toBytes3LittleSigned sample24

/-- Concatenation of two fallible byte strings: the first raised exception
wins, exactly as the serialization loop stops at the first failing sample. -/
def exceptAppend (a b : Except PyErr (List ℕ)) : Except PyErr (List ℕ) :=
  match a with
  | .error e => .error e
  | .ok x =>
    match b with
    | .error e => .error e
    | .ok y => .ok (x ++ y)

/-- The `for sample in pcm_data.flat` loop of the 24-bit branch: serialize
each sample in order; an exception aborts the loop and no bytes are
returned. -/
def encode24 : List ℚ → Except PyErr (List ℕ)
  | [] => .ok []
  | q :: qs => exceptAppend (pcm24Sample q) (encode24 qs)

/-- Embedding of `convert_to_pcm_bytes(audio_data, bit_depth)`.
The buffer is frames × channels; numpy iterates / serializes it row-major,
modelled by `List.flatten`. -/
def convert_to_pcm_bytes (audio_data : List (List ℚ)) (bit_depth : ℕ) :
    Except PyErr (List ℕ) :=
  let flat := audio_data.flatten
  if bit_depth = 16 then .ok (flat.map pcm16Sample).flatten
  else if bit_depth = 24 then encode24 flat
  else if bit_depth = 32 then .ok (flat.map pcm32Sample).flatten
  else .error (.valueError ("Unsupported bit depth: " ++ toString bit_depth))

/-- Parsed JSON values, as returned by `response.json()`.  Python's `json`
module distinguishes integers from floats, and so does the rendering
(`str(0)` is `"0"`, `str(0.0)` is `"0.0"`), hence two numeric constructors. -/
inductive Json where
  | null
  | bool (b : Bool)
  | int (n : ℤ)
  | num (q : ℚ)
  | str (s : String)
  | arr (elts : List Json)
  | obj (fields : List (String × Json))

/-- Decimal digits of `rem / den` after the point (`0 < rem < den`), with
enough fuel for every value reached by the claims.  Python's `str(float)`
prints the shortest round-tripping decimal; this agrees with it on the
finite decimal fractions the claims use. -/
def digitsAfterPoint : ℕ → ℕ → ℕ → String
  | 0, _, _ => ""
  | fuel + 1, rem, den =>
    if rem = 0 then ""
    else toString (rem * 10 / den) ++ digitsAfterPoint fuel (rem * 10 % den) den

/-- Python `str()` of a float value (as produced by an f-string replacement
field with no format spec), for rationals with a short finite decimal
expansion: a sign, the integer part, a point, and at least one digit. -/
def formatQ (q : ℚ) : String :=
  let sign := if q.num < 0 then "-" else ""
  let n := q.num.natAbs
  let rem := n % q.den
  sign ++ toString (n / q.den) ++ "." ++
    (if rem = 0 then "0" else digitsAfterPoint 17 rem q.den)

/-- Python `f"{x:.2f}"` on an exact rational: round to two decimal places,
ties to even, and pad the fraction to two digits. -/
def formatFixed2 (num : ℤ) (den : ℕ) : String :=
  let sign := if num < 0 then "-" else ""
  let n := num.natAbs * 100
  let quotient := n / den
  let rem := n % den
  let rounded :=
    if 2 * rem < den then quotient
    else if den < 2 * rem then quotient + 1
    else if quotient % 2 = 0 then quotient else quotient + 1
  sign ++ toString (rounded / 100) ++ "." ++
    (if rounded % 100 < 10 then "0" else "") ++ toString (rounded % 100)

mutual

/-- Python `repr()` of a parsed-JSON value (what `f"{error_info}"` prints for
a dict).  String escaping inside `repr` is not modelled; no claim depends
on it. -/
def pyRepr : Json → String
  | .null => "None"
  | .bool true => "True"
  | .bool false => "False"
  | .int n => toString n
  | .num q => formatQ q
  | .str s => "'" ++ s ++ "'"
  | .arr xs => "[" ++ pyReprList xs ++ "]"
  | .obj fs => "\x7b" ++ pyReprFields fs ++ "\x7d"

/-- Comma-separated `repr`s of list elements. -/
def pyReprList : List Json → String
  | [] => ""
  | [x] => pyRepr x
  | x :: y :: xs => pyRepr x ++ ", " ++ pyReprList (y :: xs)

/-- Comma-separated `'key': repr(value)` pairs of a dict. -/
def pyReprFields : List (String × Json) → String
  | [] => ""
  | [(k, v)] => "'" ++ k ++ "': " ++ pyRepr v
  | (k, v) :: p :: fs => "'" ++ k ++ "': " ++ pyRepr v ++ ", " ++ pyReprFields (p :: fs)

end

/-- Python `str()` of a value in an f-string: strings are inserted verbatim,
everything else as its `repr`/`str`. -/
def pyStr : Json → String
  | .str s => s
  | .int n => toString n
  | .num q => formatQ q
  | j => pyRepr j

/-- Python truthiness (`if result:` / `if result.get("segments"):`). -/
def jsonTruthy : Json → Bool
  | .null => false
  | .bool b => b
  | .int n => n != 0
  | .num q => q.num != 0
  | .str s => s != ""
  | .arr xs => !xs.isEmpty
  | .obj fs => !fs.isEmpty

/-- Python `value[key]` on a parsed-JSON value: `KeyError` when the key is
absent from a dict, `TypeError` when the value is not a dict. -/
def getItem (j : Json) (key : String) : Except PyErr Json :=
  match j with
  | .obj fs =>
    match fs.lookup key with
    | some v => .ok v
    | none => .error (.keyError key)
  | _ => .error (.typeError "value is not subscriptable by a string")

/-- Python `value.get(key)` (only dicts have `.get`). -/
def dictGet (j : Json) (key : String) : Except PyErr (Option Json) :=
  match j with
  | .obj fs => .ok (fs.lookup key)
  | _ => .error (.attributeError "object has no attribute get")

/-- Python `f"{x:.2f}"` applied to a parsed-JSON value: only numbers accept
the `f` format code. -/
def formatDot2 (j : Json) : Except PyErr String :=
  match j with
  | .int n => .ok (formatFixed2 n 1)
  | .num q => .ok (formatFixed2 q.num q.den)
  | _ => .error (.valueError "Unknown format code f for object")

/-- The HTTP response the server returns: status, the result of
`response.json()` (`none` when the body is not valid JSON), and
`response.text`. -/
structure HttpResponse where
  status : ℕ
  jsonBody : Option Json
  text : String

/-- Outcome of one `requests` call: either a response, or a
`requests.RequestException` raised at transport level. -/
inductive HttpOutcome where
  | response (r : HttpResponse)
  | exn (msg : String)

/-- First print of `transcribe_audio`. -/
def sendingMsg : String := "Sending audio to transcription API via multipart upload..."

/-- Embedding of `transcribe_audio(audio_bytes, sample_rate, channels,
bit_depth, api_url)`.  The network is abstracted by `outcome`, the result of
the `requests.post` call; the function returns the parsed result (or `none`)
together with the lines it prints.  Note `requests.exceptions.JSONDecodeError`
subclasses `RequestException`, so a 200 response with an unparseable body is
caught by the same handler and also yields `none`. -/
def transcribe_audio (audio_bytes : List ℕ) (sample_rate : ℕ) (channels : ℕ)
    (bit_depth : ℕ) (outcome : HttpOutcome) : Option Json × List String :=
  match outcome with
  | .exn e => (none, [sendingMsg, "Request failed: " ++ e])
  | .response r =>
    if r.status = 200 then
      match r.jsonBody with
      | some j => (some j, [sendingMsg])
      | none => (none, [sendingMsg, "Request failed: response body is not valid JSON"])
    else
      (none, [sendingMsg, "API error: " ++ toString r.status,
        match r.jsonBody with
        | some j => "Error details: " ++ pyRepr j
        | none => "Response: " ++ r.text])

/-- Command-line options after `argparse` (`--bit-depth` is restricted to
16/24/32 by `choices`, but the encoder itself is total in `bit_depth`). -/
structure Args where
  duration : ℚ
  sample_rate : ℕ
  channels : ℕ
  bit_depth : ℕ
  api_url : String
  list_devices : Bool

/-- The external collaborators of one run: the device listing text, the
outcome of the probe `GET {api_url}/`, the recording (or the capture
exception), and the outcome of the upload `POST`. -/
structure World where
  devices : String
  probe : HttpOutcome
  recording : Except String (List (List ℚ))
  upload : HttpOutcome

/-- How the process ends: `sys.exit`/normal return with a code, or an
uncaught exception escaping `main`. -/
inductive ExitOutcome where
  | exit (code : ℕ)
  | crash (e : PyErr)
deriving DecidableEq

/-- Embedding of `record_audio(duration, sample_rate, channels)`: the two
prints happen before the capture, `"Recording complete!"` only on success.
The capture itself is the external `outcome`. -/
def record_audio (duration : ℚ) (outcome : Except String (List (List ℚ))) :
    Except String (List (List ℚ)) × List String :=
  match outcome with
  | .error e =>
    (.error e, ["Recording for " ++ formatQ duration ++ " seconds...", "Speak now!"])
  | .ok a =>
    (.ok a, ["Recording for " ++ formatQ duration ++ " seconds...", "Speak now!",
      "Recording complete!"])

/-- The `"=" * 50` separator printed around the result. -/
def sepLine : String := String.mk (List.replicate 50 (Char.ofNat 61))

/-- One rendered segment line:
`f"  {i+1}. [{segment['start']}-{segment['end']}] (confidence: {segment['confidence']:.2f}) {segment['text']}"`.
Replacement fields are evaluated left to right, the `.2f` format applied as
soon as `confidence` is read. -/
def segmentLine (i : ℕ) (seg : Json) : Except PyErr String := do
  let st ← getItem seg "start"
  let en ← getItem seg "end"
  let cf ← getItem seg "confidence"
  let cfs ← formatDot2 cf
  let tx ← getItem seg "text"
  return "  " ++ toString (i + 1) ++ ". [" ++ pyStr st ++ "-" ++ pyStr en ++
    "] (confidence: " ++ cfs ++ ") " ++ pyStr tx

/-- The `for i, segment in enumerate(result["segments"])` loop: each line is
printed as it is produced, so an exception keeps the earlier lines. -/
def renderSegments (i : ℕ) : List Json → List String × Option PyErr
  | [] => ([], none)
  | seg :: rest =>
    match segmentLine i seg with
    | .error e => ([], some e)
    | .ok line =>
      let (lines, err) := renderSegments (i + 1) rest
      (line :: lines, err)

/-- The body of `if result:` in `main`: header, `Text:` line, and the
segment lines when `result.get("segments")` is truthy.  `enumerate` over a
truthy non-list is modelled as a `TypeError` (no claim reaches it). -/
def renderResult (result : Json) : List String × Option PyErr :=
  let header := ["\n" ++ sepLine, "TRANSCRIPTION RESULT:", sepLine]
  match getItem result "text" with
  | .error e => (header, some e)
  | .ok t =>
    let textLine := "Text: " ++ pyStr t
    match dictGet result "segments" with
    | .error e => (header ++ [textLine], some e)
    | .ok none => (header ++ [textLine], none)
    | .ok (some segsVal) =>
      if jsonTruthy segsVal then
        match segsVal with
        | .arr segs =>
          let (lines, err) := renderSegments 0 segs
          (header ++ [textLine, "\nSegments:"] ++ lines, err)
        | _ => (header ++ [textLine], some (.typeError "value is not iterable"))
      else (header ++ [textLine], none)

/-- The probe print `f"Testing API connection to {test_url}..."` with
`test_url = f"{args.api_url}/"`. -/
def testLine (args : Args) : String :=
  "Testing API connection to " ++ args.api_url ++ "/..."

/-- `main` from the recording step onward (steps 4–7 of the CLI driver):
record, encode, upload, render.  `trace` holds the lines printed so far. -/
def mainFromRecording (args : Args) (w : World) (trace : List String) :
    List String × ExitOutcome :=
  let (captured, recPrints) := record_audio args.duration w.recording
  let trace := trace ++ recPrints
  match captured with
  | .error e =>
    (trace ++ ["Recording failed: " ++ e,
      "Make sure you have a working microphone and the required permissions"], .exit 1)
  | .ok audio_data =>
    match convert_to_pcm_bytes audio_data args.bit_depth with
    | .error e => (trace ++ ["Audio conversion failed: " ++ e.message], .exit 1)
    | .ok audio_bytes =>
      let trace := trace ++ ["Audio converted: " ++ toString audio_bytes.length ++ " bytes"]
      let (result, tPrints) :=
        transcribe_audio audio_bytes args.sample_rate args.channels args.bit_depth w.upload
      let trace := trace ++ tPrints
      match result with
      | none => (trace ++ ["Transcription failed!"], .exit 1)
      | some j =>
        if jsonTruthy j then
          let (lines, err) := renderResult j
          match err with
          | some e => (trace ++ lines, .crash e)
          | none => (trace ++ lines, .exit 0)
        else (trace ++ ["Transcription failed!"], .exit 1)

/-- Embedding of `main()`: the linear CLI driver.  Returns the printed lines
and the process outcome (`return` at the end of the list-devices branch and
falling off the end both exit with code 0; `sys.exit(1)` with code 1). -/
def main (args : Args) (w : World) : List String × ExitOutcome :=
  if args.list_devices then
    (["Available audio devices:", w.devices], .exit 0)
  else
    match w.probe with
    | .exn e =>
      ([testLine args, "✗ Cannot connect to API: " ++ e,
        "Make sure the Rust server is running on the specified URL"], .exit 1)
    | .response r =>
      mainFromRecording args w
        [testLine args,
         if r.status = 200 then "✓ API is accessible"
         else "⚠ API returned status " ++ toString r.status]

/-- Field data of one well-formed segment of a transcription result. -/
structure SegSpec where
  start : ℚ
  stop : ℚ
  confidence : ℚ
  text : String
deriving DecidableEq

/-- The JSON object carrying one segment, with the field names the CLI reads. -/
def mkSegment (s : SegSpec) : Json :=
  .obj [("start", .num s.start), ("end", .num s.stop),
    ("confidence", .num s.confidence), ("text", .str s.text)]

/-- The rendering the spec describes for one segment, amended with the
two-space indent the code actually emits:
`"  {i+1}. [{start}-{end}] (confidence: {confidence:.2f}) {text}"`. -/
def specSegmentLine (i : ℕ) (s : SegSpec) : String :=
  "  " ++ toString (i + 1) ++ ". [" ++ formatQ s.start ++ "-" ++ formatQ s.stop ++
    "] (confidence: " ++ formatFixed2 s.confidence.num s.confidence.den ++ ") " ++ s.text

/-- The expected segment lines for a list of segments, numbered from `i + 1`. -/
def specSegmentLines (i : ℕ) : List SegSpec → List String
  | [] => []
  | s :: rest => specSegmentLine i s :: specSegmentLines (i + 1) rest

/-! ### Concrete inputs used by witnesses and counterexamples
These follow the end-to-end scenario of the spec's §8: duration 1, sample
rate 16000, 1 channel, 16-bit, one segment
`{"start": 0.0, "end": 1.0, "confidence": 0.95, "text": "test"}`. -/

/-- Arguments of the spec's end-to-end scenario. -/
def exArgs : Args := ⟨1, 16000, 1, 16, "http://127.0.0.1:8080", false⟩

/-- The example segment of the spec's end-to-end scenario. -/
def exSpec : SegSpec := ⟨0, 1, Rat.divInt 19 20, "test"⟩

/-- The JSON body the mock server echoes in the end-to-end scenario. -/
def exResult : Json :=
  .obj [("text", .str "test"), ("segments", .arr ([exSpec].map mkSegment))]

/-- A world where everything succeeds and the server echoes `exResult`. -/
def exWorld : World :=
  ⟨"devices-listing", .response ⟨200, some .null, ""⟩, .ok [[0]],
    .response ⟨200, some exResult, ""⟩⟩

/-! ### Helper lemmas -/

theorem flatten_length_const {α : Type} (C : ℕ) :
    ∀ buf : List (List α), (∀ row ∈ buf, row.length = C) →
      buf.flatten.length = buf.length * C := by
  intro buf
  induction buf with
  | nil => intro _; simp
  | cons r rs ih =>
    intro h
    have hr : r.length = C := h r (by simp)
    have hrest := ih (fun row hrow => h row (by simp [hrow]))
    simp [List.length_append, hr, hrest]
    ring

theorem map_flatten_length {α β : Type} (f : α → List β) (k : ℕ)
    (hf : ∀ x, (f x).length = k) :
    ∀ xs : List α, ((xs.map f).flatten).length = xs.length * k := by
  intro xs
  induction xs with
  | nil => simp
  | cons x xs ih => simp [List.length_append, hf, ih]; ring

theorem pcm24Sample_length (q : ℚ) (b : List ℕ) (h : pcm24Sample q = .ok b) :
    b.length = 3 := by
  simp only [pcm24Sample, toBytes3LittleSigned] at h
  split at h
  · cases h; rfl
  · cases h

theorem encode24_length : ∀ (qs : List ℚ) (bs : List ℕ),
    encode24 qs = .ok bs → bs.length = 3 * qs.length := by
  intro qs
  induction qs with
  | nil => intro bs h; cases h; rfl
  | cons q rest ih =>
    intro bs h
    rw [show encode24 (q :: rest) = exceptAppend (pcm24Sample q) (encode24 rest) from rfl]
      at h
    cases h24 : pcm24Sample q with
    | error e => rw [h24] at h; cases h
    | ok b =>
      rw [h24] at h
      cases hrest : encode24 rest with
      | error e => rw [hrest] at h; cases h
      | ok bsRest =>
        rw [hrest] at h
        simp only [exceptAppend] at h
        cases h
        have hb := pcm24Sample_length q b h24
        have := ih bsRest hrest
        simp [List.length_append, hb, this]
        ring

theorem segmentLine_mkSegment (i : ℕ) (s : SegSpec) :
    segmentLine i (mkSegment s) = .ok (specSegmentLine i s) := rfl

theorem renderSegments_map_mkSegment :
    ∀ (ss : List SegSpec) (i : ℕ),
      renderSegments i (ss.map mkSegment) = (specSegmentLines i ss, none) := by
  intro ss
  induction ss with
  | nil => intro i; rfl
  | cons s rest ih =>
    intro i
    simp [renderSegments, segmentLine_mkSegment, ih, specSegmentLines]

/-! ### Claim theorems -/

/-- C1 (code bug): the 24-bit encoder multiplies by 8388607, casts to int32
and masks to the low 24 bits as claimed, and sample `0.5` does yield the
3 little-endian bytes of `trunc(0.5 * 8388607) = 4194303 = 0x3FFFFF`; but for
a negative sample such as `-0.5` the mask makes `sample_24bit` a
*non-negative* int with bit 23 set (`12582913`), and
`to_bytes(3, "little", signed=True)` then raises `OverflowError` instead of
returning sign-extended bytes.  The code contradicts its own comment and
docstring ("Take only the lower 24 bits and convert to little-endian
3 bytes", "Returns: Audio data as bytes"): it cannot encode any buffer
containing a negative sample at 24-bit depth. -/
theorem c1_pcm24_negative_sample_raises :
    convert_to_pcm_bytes [[Rat.divInt (-1) 2]] 24 =
      .error (.overflowError "int too big to convert") ∧
    convert_to_pcm_bytes [[Rat.divInt 1 2]] 24 = .ok [255, 255, 63] :=
  ⟨rfl, rfl⟩

/-- C2: whenever the encoder returns a byte string for a buffer of `F` frames
of `C` channels at a supported bit depth, its length is
`F * C * (bit_depth / 8)`.  (At 24-bit depth the encoder can instead raise,
see C1; the claim speaks about the byte sequence returned.) -/
theorem c2_encoded_length (buf : List (List ℚ)) (C d : ℕ)
    (hC : ∀ row ∈ buf, row.length = C) (hd : d = 16 ∨ d = 24 ∨ d = 32)
    (bs : List ℕ) (h : convert_to_pcm_bytes buf d = .ok bs) :
    bs.length = buf.length * C * (d / 8) := by
  have hflat : buf.flatten.length = buf.length * C := flatten_length_const C buf hC
  rcases hd with rfl | rfl | rfl
  · rw [show convert_to_pcm_bytes buf 16 =
        .ok ((buf.flatten.map pcm16Sample).flatten) from rfl] at h
    cases h
    rw [map_flatten_length pcm16Sample 2 (fun q => rfl) buf.flatten, hflat,
      show (16 : ℕ) / 8 = 2 from rfl]
  · rw [show convert_to_pcm_bytes buf 24 = encode24 buf.flatten from rfl] at h
    rw [encode24_length buf.flatten bs h, hflat, show (24 : ℕ) / 8 = 3 from rfl]
    ring
  · rw [show convert_to_pcm_bytes buf 32 =
        .ok ((buf.flatten.map pcm32Sample).flatten) from rfl] at h
    cases h
    rw [map_flatten_length pcm32Sample 4 (fun q => rfl) buf.flatten, hflat,
      show (32 : ℕ) / 8 = 4 from rfl]

/-- Witness for C2 at a concrete input: one frame, one channel, 16-bit. -/
theorem c2_encoded_length_witness : ([255, 63] : List ℕ).length = 1 * 1 * (16 / 8) :=
  c2_encoded_length [[Rat.divInt 1 2]] 1 16
    (by intro row hrow; simp at hrow; subst hrow; rfl) (Or.inl rfl) [255, 63] rfl

/-- C3: `transcribe_audio` returns the parsed JSON body unchanged on
HTTP 200, returns `none` after printing the status for any other status, and
returns `none` after printing the error on transport failure; being a total
function of the modelled outcome, it raises nothing past this boundary. -/
theorem c3_transcribe_boundary (ab : List ℕ) (sr ch bd : ℕ) (o : HttpOutcome) :
    (∀ r j, o = .response r → r.status = 200 → r.jsonBody = some j →
      (transcribe_audio ab sr ch bd o).1 = some j) ∧
    (∀ r, o = .response r → r.status ≠ 200 →
      (transcribe_audio ab sr ch bd o).1 = none ∧
        ("API error: " ++ toString r.status) ∈ (transcribe_audio ab sr ch bd o).2) ∧
    (∀ e, o = .exn e →
      (transcribe_audio ab sr ch bd o).1 = none ∧
        ("Request failed: " ++ e) ∈ (transcribe_audio ab sr ch bd o).2) := by
  refine ⟨?_, ?_, ?_⟩
  · rintro r j rfl h200 hj
    simp [transcribe_audio, h200, hj]
  · rintro r rfl hne
    simp [transcribe_audio, hne]
  · rintro e rfl
    simp [transcribe_audio]

/-- The JSON body of the spec's mocked 200-response example. -/
def helloResult : Json := .obj [("text", .str "hello"), ("segments", .arr [])]

/-- Witness for C3: a mocked 200 response with body
`{"text": "hello", "segments": []}` is returned unchanged. -/
theorem c3_transcribe_boundary_witness :
    (transcribe_audio [] 16000 1 16 (.response ⟨200, some helloResult, ""⟩)).1 =
      some helloResult :=
  (c3_transcribe_boundary [] 16000 1 16 (.response ⟨200, some helloResult, ""⟩)).1
    ⟨200, some helloResult, ""⟩ helloResult rfl rfl rfl

/-- C4: for any bit depth outside {16, 24, 32} the encoder raises
`ValueError(f"Unsupported bit depth: {bit_depth}")` and produces no bytes. -/
theorem c4_unsupported_bit_depth (buf : List (List ℚ)) (d : ℕ)
    (h16 : d ≠ 16) (h24 : d ≠ 24) (h32 : d ≠ 32) :
    convert_to_pcm_bytes buf d =
      .error (.valueError ("Unsupported bit depth: " ++ toString d)) := by
  simp [convert_to_pcm_bytes, h16, h24, h32]

/-- Witness for C4 at bit depth 8. -/
theorem c4_unsupported_bit_depth_witness :
    convert_to_pcm_bytes [[Rat.divInt 1 2]] 8 =
      .error (.valueError "Unsupported bit depth: 8") :=
  c4_unsupported_bit_depth [[Rat.divInt 1 2]] 8
    (by decide) (by decide) (by decide)

/-- C5: the 16-bit encoding of the single sample `1.0` is the little-endian
bytes of `int16 32767` (`0x7FFF`, bytes `[255, 127]`), and of `-1.0` the
little-endian bytes of `int16 -32767` (two's complement `0x8001`, bytes
`[1, 128]`). -/
theorem c5_fullscale_16bit :
    convert_to_pcm_bytes [[(1 : ℚ)]] 16 = .ok [255, 127] ∧
    convert_to_pcm_bytes [[(-1 : ℚ)]] 16 = .ok [1, 128] :=
  ⟨rfl, rfl⟩

/-- C6: during the connectivity probe, a response (any non-2xx status is in
particular not 200) only adds the warning line and `main` continues with the
recording step (`mainFromRecording` is, definitionally, everything after the
probe), while a transport-level error prints the guidance lines and exits
with code 1. -/
theorem c6_probe_warning_vs_fatal (args : Args) (w : World)
    (hld : args.list_devices = false) :
    (∀ r, w.probe = .response r → ¬(200 ≤ r.status ∧ r.status ≤ 299) →
      main args w = mainFromRecording args w
        [testLine args, "⚠ API returned status " ++ toString r.status]) ∧
    (∀ e, w.probe = .exn e →
      main args w = ([testLine args, "✗ Cannot connect to API: " ++ e,
        "Make sure the Rust server is running on the specified URL"], .exit 1)) := by
  constructor
  · rintro r hpr hnot
    have hne : r.status ≠ 200 := fun h => hnot ⟨by omega, by omega⟩
    simp [main, hld, hpr, hne]
  · rintro e hpr
    simp [main, hld, hpr]

/-- A world whose probe gets a 500 response, for the C6 witness. -/
def probe500World : World :=
  ⟨"devices-listing", .response ⟨500, none, "oops"⟩, .ok [[0]],
    .response ⟨200, some exResult, ""⟩⟩

/-- Witness for C6: a 500 probe response leaves only the warning line and
continues with recording. -/
theorem c6_probe_warning_vs_fatal_witness :
    main exArgs probe500World = mainFromRecording exArgs probe500World
      [testLine exArgs, "⚠ API returned status 500"] :=
  (c6_probe_warning_vs_fatal exArgs probe500World rfl).1
    ⟨500, none, "oops"⟩ rfl (by decide)

/-- C7 counterexample: in the spec's end-to-end scenario the line the code
prints for the example segment is `"  1. [0.0-1.0] (confidence: 0.95) test"`
— indented by two spaces — so the claimed exact line
`"1. [0.0-1.0] (confidence: 0.95) test"` appears nowhere in the output,
although the run does exit with code 0. -/
theorem c7_counterexample_indent :
    "1. [0.0-1.0] (confidence: 0.95) test" ∉ (main exArgs exWorld).1 ∧
    "  1. [0.0-1.0] (confidence: 0.95) test" ∈ (main exArgs exWorld).1 ∧
    (main exArgs exWorld).2 = .exit 0 := by
  decide

/-- C7 (amended): for every present transcription result with a `text` field
and a present, non-empty `segments` list of well-formed segments, `main`
prints the text, then each segment rendered as
`"  {i+1}. [{start}-{end}] (confidence: {confidence:.2f}) {text}"` (two-space
indent, confidence to 2 decimal places), and exits with code 0. -/
theorem c7_renders_segments_and_exits_0 (args : Args) (w : World)
    (r : HttpResponse) (audio : List (List ℚ)) (bs : List ℕ)
    (flds : List (String × Json)) (txt utext : String) (ss : List SegSpec)
    (hld : args.list_devices = false)
    (hpr : w.probe = .response r)
    (hrec : w.recording = .ok audio)
    (henc : convert_to_pcm_bytes audio args.bit_depth = .ok bs)
    (hup : w.upload = .response ⟨200, some (.obj flds), utext⟩)
    (htxt : flds.lookup "text" = some (.str txt))
    (hsegs : flds.lookup "segments" = some (.arr (ss.map mkSegment)))
    (hne : ss ≠ []) :
    main args w =
      ([testLine args,
        (if r.status = 200 then "✓ API is accessible"
         else "⚠ API returned status " ++ toString r.status),
        "Recording for " ++ formatQ args.duration ++ " seconds...",
        "Speak now!", "Recording complete!",
        "Audio converted: " ++ toString bs.length ++ " bytes",
        sendingMsg,
        "\n" ++ sepLine, "TRANSCRIPTION RESULT:", sepLine,
        "Text: " ++ txt, "\nSegments:"] ++ specSegmentLines 0 ss,
       .exit 0) := by
  have harr : jsonTruthy (Json.arr (ss.map mkSegment)) = true := by
    cases ss with
    | nil => exact absurd rfl hne
    | cons a l => rfl
  have htruthy : jsonTruthy (Json.obj flds) = true := by
    cases flds with
    | nil => simp [List.lookup] at htxt
    | cons p ps => rfl
  have hrr : renderResult (Json.obj flds) =
      (["\n" ++ sepLine, "TRANSCRIPTION RESULT:", sepLine,
        "Text: " ++ txt, "\nSegments:"] ++ specSegmentLines 0 ss, none) := by
    simp [renderResult, getItem, dictGet, htxt, hsegs, pyStr, harr,
      renderSegments_map_mkSegment]
  simp [main, hld, hpr, mainFromRecording, record_audio, hrec, henc,
    transcribe_audio, hup, htruthy, hrr]

/-- Witness for the amended C7 at the spec's end-to-end scenario. -/
theorem c7_renders_segments_and_exits_0_witness :
    main exArgs exWorld =
      ([testLine exArgs, "✓ API is accessible",
        "Recording for 1.0 seconds...", "Speak now!", "Recording complete!",
        "Audio converted: 2 bytes", sendingMsg,
        "\n" ++ sepLine, "TRANSCRIPTION RESULT:", sepLine,
        "Text: test", "\nSegments:"] ++ specSegmentLines 0 [exSpec],
       .exit 0) :=
  c7_renders_segments_and_exits_0 exArgs exWorld ⟨200, some .null, ""⟩
    [[0]] [0, 0] [("text", .str "test"), ("segments", .arr ([exSpec].map mkSegment))]
    "test" "" [exSpec] rfl rfl rfl rfl rfl rfl rfl (by decide)

/-- C8: with `--list-devices` the CLI prints the device listing and exits
with code 0; the result does not depend on the probe, the recording or the
upload at all (the right-hand side mentions none of them), so none of the
later steps are performed. -/
theorem c8_list_devices_short_circuit (args : Args) (w : World)
    (h : args.list_devices = true) :
    main args w = (["Available audio devices:", w.devices], .exit 0) := by
  simp [main, h]

/-- Witness for C8. -/
theorem c8_list_devices_short_circuit_witness :
    main ⟨1, 16000, 1, 16, "http://127.0.0.1:8080", true⟩ exWorld =
      (["Available audio devices:", "devices-listing"], .exit 0) :=
  c8_list_devices_short_circuit ⟨1, 16000, 1, 16, "http://127.0.0.1:8080", true⟩
    exWorld rfl

/-- C9: the encoder is deterministic — equal input buffers and equal bit
depths give byte-identical outputs (it is a pure function of its inputs:
no hidden state, randomness or iteration-order dependence). -/
theorem c9_encoder_deterministic (a b : List (List ℚ)) (d e : ℕ)
    (hab : a = b) (hde : d = e) :
    convert_to_pcm_bytes a d = convert_to_pcm_bytes b e := by
  rw [hab, hde]

/-- Witness for C9. -/
theorem c9_encoder_deterministic_witness :
    convert_to_pcm_bytes [[(1 : ℚ)]] 16 = convert_to_pcm_bytes [[(1 : ℚ)]] 16 :=
  c9_encoder_deterministic [[(1 : ℚ)]] [[(1 : ℚ)]] 16 16 rfl rfl

/-- C10: a 200 response whose JSON body is the empty object makes
`transcribe_audio` return a present (non-`none`) empty dict, yet `main`'s
`if result:` check is Python truthiness, so the empty dict takes the failure
branch: it prints "Transcription failed!" and exits with code 1. -/
theorem c10_empty_dict_treated_as_failure (args : Args) (w : World)
    (r : HttpResponse) (audio : List (List ℚ)) (bs : List ℕ) (utext : String)
    (hld : args.list_devices = false)
    (hpr : w.probe = .response r)
    (hrec : w.recording = .ok audio)
    (henc : convert_to_pcm_bytes audio args.bit_depth = .ok bs)
    (hup : w.upload = .response ⟨200, some (.obj []), utext⟩) :
    (transcribe_audio bs args.sample_rate args.channels args.bit_depth
        w.upload).1 = some (.obj []) ∧
    main args w =
      ([testLine args,
        (if r.status = 200 then "✓ API is accessible"
         else "⚠ API returned status " ++ toString r.status),
        "Recording for " ++ formatQ args.duration ++ " seconds...",
        "Speak now!", "Recording complete!",
        "Audio converted: " ++ toString bs.length ++ " bytes",
        sendingMsg, "Transcription failed!"],
       .exit 1) := by
  constructor
  · rw [hup]; simp [transcribe_audio]
  · simp [main, hld, hpr, mainFromRecording, record_audio, hrec, henc,
      transcribe_audio, hup, jsonTruthy]

/-- A world that succeeds until the upload, whose body parses to `{}`. -/
def emptyDictWorld : World :=
  ⟨"devices-listing", .response ⟨200, some .null, ""⟩, .ok [[0]],
    .response ⟨200, some (.obj []), "\x7b\x7d"⟩⟩

/-- Witness for C10. -/
theorem c10_empty_dict_treated_as_failure_witness :
    (transcribe_audio [0, 0] 16000 1 16 emptyDictWorld.upload).1 =
        some (.obj []) ∧
      main exArgs emptyDictWorld =
        ([testLine exArgs, "✓ API is accessible",
          "Recording for 1.0 seconds...", "Speak now!", "Recording complete!",
          "Audio converted: 2 bytes", sendingMsg, "Transcription failed!"],
         .exit 1) :=
  c10_empty_dict_treated_as_failure exArgs emptyDictWorld ⟨200, some .null, ""⟩
    [[0]] [0, 0] "\x7b\x7d" rfl rfl rfl rfl rfl

end OpenTranscribe
